import Mathlib

/-!
Verification of the climate-driven risk scoring engine of the Skyinsights
repository.

The first part embeds `src/utils/climateRiskRules.ts`: the climate parameter
record (with legacy aliases), the static disease/pest catalogs, the standard
and meta item scorers, the per-disease tie-break weighting, the Low/Medium/High
level classification, and the stable descending sort applied to the result
list (JavaScript `Array.prototype.sort` with comparator `b.score - a.score`,
which is a stable sort since ES2019, modelled by `List.mergeSort`).

The second part embeds the aggregate risk analyzer (`analyzeRisk`) of the
`planet-aoi` edge function, together with its factor bands and recommendation
generation.

Numbers are modelled by `ℚ`.  All values arising in the engine are products of
small decimal literals, where rational and IEEE-double arithmetic agree on
every comparison the code performs.
-/

namespace ClimateRules

inductive DustLevel
  | unknown
  | low
  | medium
  | high
  deriving DecidableEq, Repr

inductive Drainage
  | unknown
  | good
  | poor
  deriving DecidableEq, Repr

inductive Category
  | Disease
  | Pest
  deriving DecidableEq, Repr

inductive Level
  | Low
  | Medium
  | High
  deriving DecidableEq, Repr

/-- The `Meta` record of per-item favourable numeric ranges
(`src/utils/climateRiskRules.ts`, type `Meta`).  Absent fields are `none`. -/
structure Meta where
  tempMin : Option ℚ := none
  tempMax : Option ℚ := none
  rhMin : Option ℚ := none
  rhMax : Option ℚ := none
  rainMin : Option ℚ := none
  rainMax : Option ℚ := none
  wetMin : Option ℚ := none
  wetMax : Option ℚ := none
  windMin : Option ℚ := none
  windMax : Option ℚ := none
  soilMin : Option ℚ := none
  soilMax : Option ℚ := none
  canopyMin : Option ℚ := none
  dustLevel : Option DustLevel := none
  drainage : Option Drainage := none
  deriving DecidableEq, Repr

/-- The `ClimateParams` input record.  Optional TypeScript fields are `Option`;
`undefined` is `none`.  `mode` is kept as an arbitrary optional string, since at
runtime any value can arrive there. -/
structure ClimateParams where
  temperature : ℚ
  relativeHumidity : Option ℚ := none
  rainfall : Option ℚ := none
  wetnessHours : Option ℚ := none
  windSpeed : Option ℚ := none
  soilMoisture : Option ℚ := none
  canopyHumidity : Option ℚ := none
  dustLevel : Option DustLevel := none
  drainage : Option Drainage := none
  hasStandingWater48h : Option Bool := none
  hasTempJump10C : Option Bool := none
  hadDroughtThenHeavyRain : Option Bool := none
  mode : Option String := none
  rh : Option ℚ := none
  weeklyRainfall : Option ℚ := none
  leafWetness : Option ℚ := none
  deriving DecidableEq, Repr

/-- The `RiskItem` output record. -/
structure RiskItem where
  name : String
  category : Category
  score : ℚ
  level : Level
  matchedFactors : List String
  deriving DecidableEq, Repr

/-- One catalog entry: a name, a list of labelled standard-mode boolean checks
(already evaluated against the reading, as in the source where the check
expressions are evaluated when the `items` array literal is built), and an
optional `Meta` range record. -/
structure CatalogItem where
  name : String
  checks : List (String × Bool)
  meta : Option Meta := none
  deriving DecidableEq, Repr

/-- Result of scoring one catalog entry: a score and matched factor labels. -/
structure ScoreResult where
  score : ℚ
  matchedFactors : List String
  deriving DecidableEq, Repr

/-- The `diseaseWeights` lookup table (tie-break multipliers). -/
def diseaseWeights (name : String) : Option ℚ :=
  if name = "Brown Rot" then some 1.2
  else if name = "Bull\x27s‑eye Rot" then some 1.15
  else if name = "Apple Scab" then some 1.1
  else if name = "Apple Leaf Blotch (Alternaria)" then some 1.05
  else none

/-- `applyDiseaseWeight`: multiply by the per-name weight (default 1) and clamp
to 100. -/
def applyDiseaseWeight (name : String) (rawScore : ℚ) : ℚ :=
  let w := (diseaseWeights name).getD 1
  let weighted := rawScore * w
  if weighted > 100 then 100 else weighted

/-- `levelFor`: classify a score into Low / Medium / High. -/
def levelFor (score : ℚ) : Level :=
  if score ≤ 30 then .Low
  else if score ≤ 70 then .Medium
  else .High

/-- `scoreFromMatches`: 20 points per matched check, capped at 100. -/
def scoreFromMatches (ms : List String) : ℚ :=
  min 100 ((ms.length : ℚ) * 20)

/-- `scoreStandardItem`: collect the labels of satisfied checks (in declaration
order) and score them.  The reading parameter is unused, as in the source. -/
def scoreStandardItem (item : CatalogItem) (_params : ClimateParams) : ScoreResult :=
  let matched := (item.checks.filter (fun c => c.2)).map (fun c => c.1)
  { score := scoreFromMatches matched, matchedFactors := matched }

/-- The name fragment that activates the physiological flag checks. -/
def necroNameStart : String := "necrotic leaf blotch"

/-- `name.toLowerCase().startsWith('necrotic leaf blotch')`, embedded at the
character-list level (ASCII lower-casing done by `Char.toLower`, as in
JavaScript on these names). -/
def isNecroticName (name : String) : Bool :=
  necroNameStart.data.isPrefixOf (name.data.map Char.toLower)

/-- The sequence of labelled meta-mode checks of `scoreFromMeta`, in source
order: each entry contributes 20 points when its condition holds.  Labels that
the source builds from range bounds are reproduced (bounds are present whenever
the condition can hold, so the `getD 0` fallback inside a label is never
observable).  The two flag checks are present exactly for names starting, case
insensitively, with the Necrotic Leaf Blotch prefix. -/
def metaChecks (name : String) (m : Meta) (params : ClimateParams) : List (String × Bool) :=
  [ ("Temperature " ++ toString (m.tempMin.getD 0) ++ "–" ++ toString (m.tempMax.getD 0) ++ "°C",
      match m.tempMin, m.tempMax with
      | some lo, some hi => decide (params.temperature ≥ lo) && decide (params.temperature ≤ hi)
      | _, _ => false),
    ("RH " ++ toString (m.rhMin.getD 0) ++
        (match m.rhMax with
         | some hi => if hi = 0 then "+" else "–" ++ toString hi
         | none => "+") ++ "%",
      match m.rhMin, params.relativeHumidity with
      | some lo, some v =>
          decide (v ≥ lo) &&
            (match m.rhMax with
             | some hi => decide (v ≤ hi)
             | none => true)
      | _, _ => false),
    ("Rainfall in favourable range",
      match m.rainMin, params.rainfall with
      | some lo, some v =>
          decide (v ≥ lo) &&
            (match m.rainMax with
             | some hi => decide (v ≤ hi)
             | none => true)
      | _, _ => false),
    ("Leaf/fruit wetness in favourable range",
      match m.wetMin, params.wetnessHours with
      | some lo, some v =>
          decide (v ≥ lo) &&
            (match m.wetMax with
             | some hi => decide (v ≤ hi)
             | none => true)
      | _, _ => false),
    ("Wind speed in favourable range",
      match m.windMin, params.windSpeed with
      | some lo, some v =>
          decide (v ≥ lo) &&
            (match m.windMax with
             | some hi => decide (v ≤ hi)
             | none => true)
      | _, _ => false),
    ("Soil moisture in favourable range",
      match m.soilMin, params.soilMoisture with
      | some lo, some v =>
          decide (v ≥ lo) &&
            (match m.soilMax with
             | some hi => decide (v ≤ hi)
             | none => true)
      | _, _ => false),
    ("High canopy humidity (≥" ++ toString (m.canopyMin.getD 0) ++ "%)",
      match m.canopyMin, params.canopyHumidity with
      | some lo, some v => decide (v ≥ lo)
      | _, _ => false),
    ("High dust level",
      decide (m.dustLevel = some .high) && decide (params.dustLevel = some .high)),
    ("Poor drainage / standing water",
      decide (m.drainage = some .poor) &&
        (decide (params.drainage = some .poor) || params.hasStandingWater48h.getD false)) ]
  ++ (if isNecroticName name then
        [ ("Temperature fluctuation >10°C in 24–48 h", params.hasTempJump10C.getD false),
          ("Drought followed by heavy rain", params.hadDroughtThenHeavyRain.getD false) ]
      else [])

/-- Accumulation step of `scoreFromMeta`: a satisfied check adds 20 points and
appends its label. -/
def applyMetaCheck (acc : ℚ × List String) (c : String × Bool) : ℚ × List String :=
  if c.2 then (acc.1 + 20, acc.2 ++ [c.1]) else acc

/-- `scoreFromMeta`: run all meta checks in order, then clamp the total to 100.
Without a `Meta` record the score is 0 with no matched factors. -/
def scoreFromMeta (name : String) (meta : Option Meta) (params : ClimateParams) : ScoreResult :=
  match meta with
  | none => { score := 0, matchedFactors := [] }
  | some m =>
    let r := (metaChecks name m params).foldl applyMetaCheck (0, [])
    { score := if r.1 > 100 then 100 else r.1, matchedFactors := r.2 }

/-- Mode dispatch (`mode === 'meta' ? scoreFromMeta(...) : scoreStandardItem(...)`). -/
def scoreItem (mode : String) (item : CatalogItem) (params : ClimateParams) : ScoreResult :=
  if mode = "meta" then scoreFromMeta item.name item.meta params
  else scoreStandardItem item params

/-- The disease catalog of `calculateDiseaseRisks`, built from the
alias-resolved reading values `t`, `rh`, `rain`, `lw`, `w` and the raw optional
`soilMoisture` / `canopyHumidity` fields. -/
def diseaseItems (t rh rain lw w : ℚ) (sm canopyHumidity : Option ℚ) : List CatalogItem :=
  [ { name := "Apple Scab",
      checks :=
        [ ("Temperature 10–24°C", decide (t ≥ 10) && decide (t ≤ 24)),
          ("RH >85%", decide (rh > 85)),
          ("Rainfall ≥5 mm", decide (rain ≥ 5)),
          ("Leaf wetness 9–12h", decide (lw ≥ 9) && decide (lw ≤ 12)),
          ("Wind 5–15 km/h", decide (w ≥ 5) && decide (w ≤ 15)),
          ("High canopy humidity (>=70%)",
            match canopyHumidity with
            | some c => decide (c ≥ 70)
            | none => false) ],
      meta := some { wetMin := some 9, wetMax := some 12, windMin := some 5, windMax := some 15,
                     soilMin := some 60, soilMax := some 80 } },
    { name := "Apple Leaf Blotch (Alternaria)",
      checks :=
        [ ("Temperature 24–30°C", decide (t ≥ 24) && decide (t ≤ 30)),
          ("RH 80–95%", decide (rh ≥ 80) && decide (rh ≤ 95)),
          ("Rainfall 15–40 mm/week", decide (rain ≥ 15) && decide (rain ≤ 40)),
          ("Leaf wetness ≥6h", decide (lw ≥ 6)),
          ("High canopy humidity (>=70%)",
            match canopyHumidity with
            | some c => decide (c ≥ 70)
            | none => false) ],
      meta := some { wetMin := some 6, wetMax := some 24, windMin := some 3, windMax := some 20,
                     soilMin := some 60, soilMax := some 80 } },
    { name := "Powdery Mildew",
      checks :=
        [ ("Temperature 15–25°C", decide (t ≥ 15) && decide (t ≤ 25)),
          ("RH 60–85%", decide (rh ≥ 60) && decide (rh ≤ 85)),
          ("Leaf wetness 0–2h", decide (lw ≥ 0) && decide (lw ≤ 2)),
          ("Wind <6 km/h", decide (w < 6)) ],
      meta := some { wetMin := some 0, wetMax := some 2, windMin := some 0, windMax := some 6,
                     soilMin := some 50, soilMax := some 70 } },
    { name := "Brown Rot",
      checks :=
        [ ("Temperature 20–30°C", decide (t ≥ 20) && decide (t ≤ 30)),
          ("RH ≥85%", decide (rh ≥ 85)),
          ("Rainfall ≥10 mm", decide (rain ≥ 10)),
          ("Wetness ≥5h", decide (lw ≥ 5)) ],
      meta := some { wetMin := some 5, wetMax := some 24, windMin := some 3, windMax := some 20,
                     soilMin := some 60, soilMax := some 80 } },
    { name := "Bull\x27s‑eye Rot",
      checks :=
        [ ("Temperature 15–22°C", decide (t ≥ 15) && decide (t ≤ 22)),
          ("RH 85–95%", decide (rh ≥ 85) && decide (rh ≤ 95)),
          ("Rainfall 20–50 mm", decide (rain ≥ 20) && decide (rain ≤ 50)),
          ("Leaf/Fruit wetness ≥8h", decide (lw ≥ 8)) ],
      meta := some { wetMin := some 8, wetMax := some 24, windMin := some 0, windMax := some 12,
                     soilMin := some 60, soilMax := some 80 } },
    { name := "Sooty Blotch",
      checks :=
        [ ("Temperature 20–28°C", decide (t ≥ 20) && decide (t ≤ 28)),
          ("RH ≥90%", decide (rh ≥ 90)),
          ("Rainfall ≥30 mm/month (approx week>=7)", decide (rain ≥ 7)),
          ("Leaf wetness ≥12h", decide (lw ≥ 12)) ],
      meta := some { wetMin := some 12, wetMax := some 48, windMin := some 0, windMax := some 15,
                     soilMin := some 70, soilMax := some 90 } },
    { name := "Flyspeck",
      checks :=
        [ ("Temperature 18–26°C", decide (t ≥ 18) && decide (t ≤ 26)),
          ("RH 90–98%", decide (rh ≥ 90) && decide (rh ≤ 98)),
          ("Frequent light rains (>=3 days/week) approximated as rain>=3", decide (rain ≥ 3)),
          ("Leaf wetness ≥15h", decide (lw ≥ 15)) ],
      meta := some { wetMin := some 15, wetMax := some 48, windMin := some 0, windMax := some 15,
                     soilMin := some 70, soilMax := some 90 } },
    { name := "Collar / Root Rot",
      checks :=
        [ ("Soil Temp 15–28°C (approx)", decide (t ≥ 15) && decide (t ≤ 28)),
          ("Soil moisture ≥85%", decide (sm.getD 0 ≥ 85)),
          ("Rainfall ≥40 mm/week", decide (rain ≥ 40)) ],
      meta := some { soilMin := some 85, soilMax := some 100, rainMin := some 40,
                     drainage := some .poor, windMin := some 0, windMax := some 20 } },
    { name := "Necrotic Leaf Blotch (physiological)",
      checks :=
        [ ("RH <40% OR >90%", decide (rh < 40) || decide (rh > 90)),
          ("Soil moisture swing <40% then >80% (approx ignored)", false),
          ("Hot & dry wind >15 km/h", decide (w > 15)) ],
      meta := some { soilMin := some 0, soilMax := some 40, windMin := some 15, windMax := some 100,
                     rainMin := some 20, wetMin := some 2, wetMax := some 24 } } ]

/-- The pest catalog of `calculatePestRisks`. -/
def pestItems (t rh rain lw w : ℚ) (sm : Option ℚ) (dustLevel : Option DustLevel)
    (canopyHumidity : Option ℚ) (drainage : Option Drainage) : List CatalogItem :=
  [ { name := "Fruit Fly",
      checks :=
        [ ("Temperature 22–35°C", decide (t ≥ 22) && decide (t ≤ 35)),
          ("RH 70–95%", decide (rh ≥ 70) && decide (rh ≤ 95)),
          ("Rainfall 20–60 mm/week", decide (rain ≥ 20) && decide (rain ≤ 60)),
          ("Wind <12 km/h", decide (w < 12)),
          ("Soil moisture >70%", decide (sm.getD 0 > 70)) ],
      meta := some { windMin := some 0, windMax := some 12, soilMin := some 70, soilMax := some 100,
                     canopyMin := some 70 } },
    { name := "Tent Caterpillar",
      checks :=
        [ ("Temperature 18–30°C", decide (t ≥ 18) && decide (t ≤ 30)),
          ("RH 45–65%", decide (rh ≥ 45) && decide (rh ≤ 65)),
          ("Rainfall <20 mm/week", decide (rain < 20)),
          ("Wind <10 km/h", decide (w < 10)) ],
      meta := some { windMin := some 0, windMax := some 10, wetMin := some 2, wetMax := some 10,
                     soilMin := some 50, soilMax := some 70 } },
    { name := "Fruit Borer",
      checks :=
        [ ("Temperature 20–32°C", decide (t ≥ 20) && decide (t ≤ 32)),
          ("RH 60–80%", decide (rh ≥ 60) && decide (rh ≤ 80)),
          ("Rainfall 10–30 mm/week", decide (rain ≥ 10) && decide (rain ≤ 30)),
          ("Wind <10 km/h", decide (w < 10)) ],
      meta := some { windMin := some 0, windMax := some 10, wetMin := some 4, wetMax := some 12,
                     soilMin := some 60, soilMax := some 80 } },
    { name := "European Red Mite",
      checks :=
        [ ("Temperature 26–38°C", decide (t ≥ 26) && decide (t ≤ 38)),
          ("RH 30–55%", decide (rh ≥ 30) && decide (rh ≤ 55)),
          ("Rainfall <10 mm/week", decide (rain < 10)),
          ("Wind <8 km/h", decide (w < 8)),
          ("Dust level high", decide (dustLevel = some .high)) ],
      meta := some { windMin := some 0, windMax := some 8, wetMin := some 0, wetMax := some 4,
                     soilMin := some 40, soilMax := some 70, dustLevel := some .high } },
    { name := "San José Scale",
      checks :=
        [ ("Temperature 22–32°C", decide (t ≥ 22) && decide (t ≤ 32)),
          ("RH 50–70%", decide (rh ≥ 50) && decide (rh ≤ 70)),
          ("Rainfall <20 mm/week", decide (rain < 20)),
          ("Wind <8 km/h", decide (w < 8)),
          ("Soil moisture 60–70% AND drainage good",
            decide (sm.getD 0 ≥ 60) && decide (sm.getD 0 ≤ 70) && decide (drainage = some .good)) ],
      meta := some { windMin := some 0, windMax := some 8, soilMin := some 60, soilMax := some 70,
                     wetMin := some 0, wetMax := some 6 } },
    { name := "Leaf Miner",
      checks :=
        [ ("Temperature 20–30°C", decide (t ≥ 20) && decide (t ≤ 30)),
          ("RH 40–65%", decide (rh ≥ 40) && decide (rh ≤ 65)),
          ("Rainfall <15 mm/week", decide (rain < 15)),
          ("Wind <6 km/h", decide (w < 6)),
          ("Leaf wetness <4h", decide (lw < 4)) ],
      meta := some { windMin := some 0, windMax := some 6, wetMin := some 0, wetMax := some 4,
                     soilMin := some 50, soilMax := some 70 } },
    { name := "Woolly Apple Aphid",
      checks :=
        [ ("Temperature 15–25°C", decide (t ≥ 15) && decide (t ≤ 25)),
          ("RH 65–85%", decide (rh ≥ 65) && decide (rh ≤ 85)),
          ("Rainfall 10–25 mm/week", decide (rain ≥ 10) && decide (rain ≤ 25)),
          ("Wind <10 km/h", decide (w < 10)),
          ("Soil moisture 65–80%", decide (sm.getD 0 ≥ 65) && decide (sm.getD 0 ≤ 80)),
          ("High canopy humidity (>=70%)",
            match canopyHumidity with
            | some c => decide (c ≥ 70)
            | none => false) ],
      meta := some { windMin := some 0, windMax := some 10, wetMin := some 2, wetMax := some 8,
                     soilMin := some 65, soilMax := some 80 } },
    { name := "Green Apple Aphid",
      checks :=
        [ ("Temperature 14–24°C", decide (t ≥ 14) && decide (t ≤ 24)),
          ("RH 55–75%", decide (rh ≥ 55) && decide (rh ≤ 75)),
          ("Rainfall >20 mm/week", decide (rain > 20)),
          ("Wind <8 km/h", decide (w < 8)),
          ("High canopy humidity (>=70%)",
            match canopyHumidity with
            | some c => decide (c ≥ 70)
            | none => false) ],
      meta := some { windMin := some 0, windMax := some 8, wetMin := some 2, wetMax := some 8,
                     soilMin := some 60, soilMax := some 80 } } ]

/-- Evaluation of one disease catalog entry: score in the selected mode, apply
the tie-break weight, classify. -/
def mkDiseaseResult (mode : String) (params : ClimateParams) (item : CatalogItem) : RiskItem :=
  let sc := scoreItem mode item params
  let weightedScore := applyDiseaseWeight item.name sc.score
  { name := item.name, category := .Disease, score := weightedScore,
    level := levelFor weightedScore, matchedFactors := sc.matchedFactors }

/-- Evaluation of one pest catalog entry: score in the selected mode (no
weighting), classify. -/
def mkPestResult (mode : String) (params : ClimateParams) (item : CatalogItem) : RiskItem :=
  let sc := scoreItem mode item params
  { name := item.name, category := .Pest, score := sc.score,
    level := levelFor sc.score, matchedFactors := sc.matchedFactors }

/-- Stable insertion of `x` into a descending-sorted list: `x` is placed before
the first element of strictly smaller score, hence after every earlier element
of equal score. -/
def insertByScoreDesc (x : RiskItem) : List RiskItem → List RiskItem
  | [] => [x]
  | y :: ys => if y.score < x.score then x :: y :: ys else y :: insertByScoreDesc x ys

/-- JavaScript `results.sort((a, b) => b.score - a.score)`: with this consistent
comparator `Array.prototype.sort` (stable since ES2019) returns the unique
stable descending-by-score reordering, modelled here as a stable insertion
sort. -/
def jsSortByScoreDesc (l : List RiskItem) : List RiskItem :=
  l.foldl (fun acc x => insertByScoreDesc x acc) []

/-- The disease result list before sorting, in catalog declaration order. -/
def diseaseResultsUnsorted (params : ClimateParams) : List RiskItem :=
  (diseaseItems params.temperature
      (params.rh.getD (params.relativeHumidity.getD 0))
      (params.weeklyRainfall.getD (params.rainfall.getD 0))
      (params.leafWetness.getD (params.wetnessHours.getD 0))
      (params.windSpeed.getD 0)
      params.soilMoisture params.canopyHumidity).map
    (mkDiseaseResult (params.mode.getD ("standard")) params)

/-- `calculateDiseaseRisks`. -/
def calculateDiseaseRisks (params : ClimateParams) : List RiskItem :=
  jsSortByScoreDesc (diseaseResultsUnsorted params)

/-- The pest result list before sorting, in catalog declaration order. -/
def pestResultsUnsorted (params : ClimateParams) : List RiskItem :=
  (pestItems params.temperature
      (params.rh.getD (params.relativeHumidity.getD 0))
      (params.weeklyRainfall.getD (params.rainfall.getD 0))
      (params.leafWetness.getD (params.wetnessHours.getD 0))
      (params.windSpeed.getD 0)
      params.soilMoisture params.dustLevel params.canopyHumidity params.drainage).map
    (mkPestResult (params.mode.getD ("standard")) params)

/-- `calculatePestRisks`. -/
def calculatePestRisks (params : ClimateParams) : List RiskItem :=
  jsSortByScoreDesc (pestResultsUnsorted params)

end ClimateRules

namespace PlanetAoi

/-- The `ClimateData` record of the `planet-aoi` edge function (all fields
optional). -/
structure ClimateData where
  temperature : Option ℚ := none
  rainfall : Option ℚ := none
  relativeHumidity : Option ℚ := none
  windSpeed : Option ℚ := none
  soilMoisture : Option ℚ := none
  canopyHumidity : Option ℚ := none
  wetnessHours : Option ℚ := none
  deriving DecidableEq, Repr

/-- One factor of the aggregate analysis: the raw value and a qualitative
risk flag. -/
structure RiskFactor where
  value : Option ℚ
  risk : String
  deriving DecidableEq, Repr

/-- The five factors of the aggregate analysis. -/
structure RiskFactors where
  temperature : RiskFactor
  humidity : RiskFactor
  wetness : RiskFactor
  soilMoisture : RiskFactor
  rainfall : RiskFactor
  deriving DecidableEq, Repr

/-- The output record of `analyzeRisk`. -/
structure RiskAnalysis where
  riskLevel : String
  riskScore : ℚ
  factors : RiskFactors
  recommendations : List String
  deriving DecidableEq, Repr

/-- Temperature band of `analyzeRisk`: +25 (high) in [15,25], else +15 (medium)
in [12,28], else 0 (low); an absent value contributes 0 with flag low. -/
def temperatureContribution (temp : Option ℚ) : ℚ × String :=
  match temp with
  | none => (0, "low")
  | some temp =>
    if temp ≥ 15 ∧ temp ≤ 25 then (25, "high")
    else if temp ≥ 12 ∧ temp ≤ 28 then (15, "medium")
    else (0, "low")

/-- Humidity band: +25 (high) at ≥85, else +15 (medium) at ≥70, else 0. -/
def humidityContribution (humidity : Option ℚ) : ℚ × String :=
  match humidity with
  | none => (0, "low")
  | some humidity =>
    if humidity ≥ 85 then (25, "high")
    else if humidity ≥ 70 then (15, "medium")
    else (0, "low")

/-- Wetness-hours band: +25 (high) at ≥12, else +15 (medium) at ≥8, else 0. -/
def wetnessContribution (wetness : Option ℚ) : ℚ × String :=
  match wetness with
  | none => (0, "low")
  | some wetness =>
    if wetness ≥ 12 then (25, "high")
    else if wetness ≥ 8 then (15, "medium")
    else (0, "low")

/-- Soil-moisture band: +15 (medium) in [50,80], else +10 (flag stays low) in
[40,90], else 0. -/
def soilMoistureContribution (moisture : Option ℚ) : ℚ × String :=
  match moisture with
  | none => (0, "low")
  | some moisture =>
    if moisture ≥ 50 ∧ moisture ≤ 80 then (15, "medium")
    else if moisture ≥ 40 ∧ moisture ≤ 90 then (10, "low")
    else (0, "low")

/-- Rainfall band: +10 (high) at ≥20, else +5 (medium) at ≥10, else 0. -/
def rainfallContribution (rain : Option ℚ) : ℚ × String :=
  match rain with
  | none => (0, "low")
  | some rain =>
    if rain ≥ 20 then (10, "high")
    else if rain ≥ 10 then (5, "medium")
    else (0, "low")

def temperatureMsg : String := "⚠️ Temperature is optimal for disease spread - monitor closely"

def humidityMsg : String := "⚠️ High humidity detected - increase air circulation"

def wetnessMsg : String := "⚠️ Extended leaf wetness period - apply fungicide if needed"

def soilMoistureMsg : String := "💧 Soil moisture favorable for pathogen survival - adjust irrigation"

def preventiveMsg : String := "🔴 Consider preventive fungicide application"

def lowRiskMsg : String := "✅ Risk level is low - continue normal management"

/-- `analyzeRisk` of the `planet-aoi` edge function: sum the five factor
contributions, classify (≥80 critical, ≥60 high, ≥40 medium, else low), and
emit the gated recommendations (falling back to the single low-risk message
when none fires). -/
def analyzeRisk (climate : ClimateData) : RiskAnalysis :=
  let tc := temperatureContribution climate.temperature
  let hc := humidityContribution climate.relativeHumidity
  let wc := wetnessContribution climate.wetnessHours
  let sc := soilMoistureContribution climate.soilMoisture
  let rc := rainfallContribution climate.rainfall
  let riskScore := tc.1 + hc.1 + wc.1 + sc.1 + rc.1
  let riskLevel :=
    if riskScore ≥ 80 then "critical"
    else if riskScore ≥ 60 then "high"
    else if riskScore ≥ 40 then "medium"
    else "low"
  let recs :=
    (if tc.2 = "high" then [temperatureMsg] else []) ++
    (if hc.2 = "high" then [humidityMsg] else []) ++
    (if wc.2 = "high" then [wetnessMsg] else []) ++
    (if sc.2 = "medium" then [soilMoistureMsg] else []) ++
    (if riskLevel = "critical" ∨ riskLevel = "high" then [preventiveMsg] else [])
  { riskLevel := riskLevel
    riskScore := riskScore
    factors :=
      { temperature := { value := climate.temperature, risk := tc.2 }
        humidity := { value := climate.relativeHumidity, risk := hc.2 }
        wetness := { value := climate.wetnessHours, risk := wc.2 }
        soilMoisture := { value := climate.soilMoisture, risk := sc.2 }
        rainfall := { value := climate.rainfall, risk := rc.2 } }
    recommendations := if recs.length > 0 then recs else [lowRiskMsg] }

end PlanetAoi

namespace ClimateRules

/-- The reading of spec example 2: temperature 5, RH 20, rainfall 0, wetness 0,
wind 30, all other optional fields absent. -/
def exampleTwoReading : ClimateParams :=
  { temperature := 5, relativeHumidity := some 20, rainfall := some 0,
    wetnessHours := some 0, windSpeed := some 30 }

/-- A reading with every optional field omitted, except a required temperature
and the requested mode. -/
def omittedReading (t : ℚ) (mode : Option String) : ClimateParams :=
  { temperature := t, mode := mode }

/-- A reading with every optional field explicitly set to its documented
default: numeric fields 0, enum fields `unknown`, boolean fields false. -/
def defaultedReading (t : ℚ) (mode : Option String) : ClimateParams :=
  { temperature := t, relativeHumidity := some 0, rainfall := some 0,
    wetnessHours := some 0, windSpeed := some 0, soilMoisture := some 0,
    canopyHumidity := some 0, dustLevel := some .unknown, drainage := some .unknown,
    hasStandingWater48h := some false, hasTempJump10C := some false,
    hadDroughtThenHeavyRain := some false, mode := mode,
    rh := some 0, weeklyRainfall := some 0, leafWetness := some 0 }

end ClimateRules

namespace PlanetAoi

/-- The aggregated reading of spec example 3: temperature 20, RH 90, wetness 14,
soil moisture 65, rainfall 25. -/
def exampleThreeClimate : ClimateData :=
  { temperature := some 20, rainfall := some 25, relativeHumidity := some 90,
    soilMoisture := some 65, wetnessHours := some 14 }

end PlanetAoi


namespace ClimateRules

theorem isNecroticName_scab : isNecroticName "Apple Scab" = false := by decide

theorem isNecroticName_alternaria : isNecroticName "Apple Leaf Blotch (Alternaria)" = false := by
  decide

theorem isNecroticName_mildew : isNecroticName "Powdery Mildew" = false := by decide

theorem isNecroticName_brownrot : isNecroticName "Brown Rot" = false := by decide

theorem isNecroticName_bullseye : isNecroticName "Bull\x27s‑eye Rot" = false := by decide

theorem isNecroticName_sooty : isNecroticName "Sooty Blotch" = false := by decide

theorem isNecroticName_flyspeck : isNecroticName "Flyspeck" = false := by decide

theorem isNecroticName_collar : isNecroticName "Collar / Root Rot" = false := by decide

theorem isNecroticName_necrotic :
    isNecroticName "Necrotic Leaf Blotch (physiological)" = true := by decide

theorem insertByScoreDesc_perm (x : RiskItem) (l : List RiskItem) :
    List.Perm (insertByScoreDesc x l) (x :: l) := by
  induction l with
  | nil => rfl
  | cons y ys ih =>
    by_cases h : y.score < x.score
    · simp [insertByScoreDesc, h]
    · simp only [insertByScoreDesc, if_neg h]
      exact List.Perm.trans (ih.cons y) (List.Perm.swap x y ys)

theorem insertByScoreDesc_pairwise (x : RiskItem) {l : List RiskItem}
    (h : l.Pairwise (fun a b => b.score ≤ a.score)) :
    (insertByScoreDesc x l).Pairwise (fun a b => b.score ≤ a.score) := by
  induction l with
  | nil => simp [insertByScoreDesc]
  | cons y ys ih =>
    rw [List.pairwise_cons] at h
    by_cases hxy : y.score < x.score
    · simp only [insertByScoreDesc, if_pos hxy]
      refine List.Pairwise.cons ?_ (List.Pairwise.cons h.1 h.2)
      intro z hz
      rcases List.mem_cons.mp hz with rfl | hz
      · exact le_of_lt hxy
      · exact le_trans (h.1 z hz) (le_of_lt hxy)
    · simp only [insertByScoreDesc, if_neg hxy]
      refine List.Pairwise.cons ?_ (ih h.2)
      intro z hz
      have hz' := (insertByScoreDesc_perm x ys).mem_iff.mp hz
      rcases List.mem_cons.mp hz' with rfl | hz'
      · exact le_of_not_lt hxy
      · exact h.1 z hz'

theorem insertByScoreDesc_filter (x : RiskItem) (s : ℚ) {l : List RiskItem}
    (h : l.Pairwise (fun a b => b.score ≤ a.score)) :
    (insertByScoreDesc x l).filter (fun r => decide (r.score = s)) =
      l.filter (fun r => decide (r.score = s)) ++
        [x].filter (fun r => decide (r.score = s)) := by
  induction l with
  | nil => simp [insertByScoreDesc]
  | cons y ys ih =>
    rw [List.pairwise_cons] at h
    by_cases hxy : y.score < x.score
    · simp only [insertByScoreDesc, if_pos hxy]
      by_cases hx : x.score = s
      · have hy : ¬ (y.score = s) := ne_of_lt (hx ▸ hxy)
        have hys : ∀ z ∈ ys, ¬ (z.score = s) :=
          fun z hz => ne_of_lt (lt_of_le_of_lt (h.1 z hz) (hx ▸ hxy))
        rw [List.filter_cons_of_pos (by simpa using hx),
            List.filter_cons_of_neg (by simpa using hy),
            List.filter_eq_nil_iff.mpr (by simpa using hys)]
        simp [hx]
      · rw [List.filter_cons_of_neg (by simpa using hx)]
        simp [hx]
    · simp only [insertByScoreDesc, if_neg hxy]
      by_cases hy : y.score = s
      · rw [List.filter_cons_of_pos (by simpa using hy),
            List.filter_cons_of_pos (by simpa using hy), ih h.2, List.cons_append]
      · rw [List.filter_cons_of_neg (by simpa using hy),
            List.filter_cons_of_neg (by simpa using hy), ih h.2]

theorem foldl_insert_perm (l acc : List RiskItem) :
    List.Perm (l.foldl (fun a x => insertByScoreDesc x a) acc) (l ++ acc) := by
  induction l generalizing acc with
  | nil => simp
  | cons x xs ih =>
    have h1 : List.Perm (xs.foldl (fun a x => insertByScoreDesc x a) (insertByScoreDesc x acc))
        (xs ++ insertByScoreDesc x acc) := ih _
    have h2 : List.Perm (xs ++ insertByScoreDesc x acc) (xs ++ (x :: acc)) :=
      (insertByScoreDesc_perm x acc).append_left xs
    have h3 : List.Perm (xs ++ (x :: acc)) (x :: (xs ++ acc)) := List.perm_middle
    exact (h1.trans h2).trans h3

theorem foldl_insert_pairwise (l : List RiskItem) :
    ∀ acc : List RiskItem, acc.Pairwise (fun a b => b.score ≤ a.score) →
      (l.foldl (fun a x => insertByScoreDesc x a) acc).Pairwise (fun a b => b.score ≤ a.score) := by
  induction l with
  | nil => exact fun acc h => h
  | cons x xs ih => exact fun acc h => ih _ (insertByScoreDesc_pairwise x h)

theorem foldl_insert_filter (s : ℚ) (l : List RiskItem) :
    ∀ acc : List RiskItem, acc.Pairwise (fun a b => b.score ≤ a.score) →
      (l.foldl (fun a x => insertByScoreDesc x a) acc).filter (fun r => decide (r.score = s)) =
        acc.filter (fun r => decide (r.score = s)) ++ l.filter (fun r => decide (r.score = s)) := by
  induction l with
  | nil => intro acc _; simp
  | cons x xs ih =>
    intro acc h
    have h1 := ih (insertByScoreDesc x acc) (insertByScoreDesc_pairwise x h)
    rw [List.foldl_cons, h1, insertByScoreDesc_filter x s h, List.append_assoc]
    congr 1
    by_cases hx : x.score = s
    · rw [List.filter_cons_of_pos (by simpa using hx),
        List.filter_cons_of_pos (by simpa using hx)]
      simp
    · rw [List.filter_cons_of_neg (by simpa using hx),
        List.filter_cons_of_neg (by simpa using hx)]
      simp

theorem jsSortByScoreDesc_perm (l : List RiskItem) :
    List.Perm (jsSortByScoreDesc l) l := by
  simpa using foldl_insert_perm l []

theorem jsSortByScoreDesc_mem {r : RiskItem} {l : List RiskItem} :
    r ∈ jsSortByScoreDesc l ↔ r ∈ l :=
  (jsSortByScoreDesc_perm l).mem_iff

theorem jsSortByScoreDesc_pairwise (l : List RiskItem) :
    (jsSortByScoreDesc l).Pairwise (fun a b => b.score ≤ a.score) :=
  foldl_insert_pairwise l [] (List.Pairwise.nil)

theorem jsSortByScoreDesc_filter (l : List RiskItem) (s : ℚ) :
    (jsSortByScoreDesc l).filter (fun r => decide (r.score = s)) =
      l.filter (fun r => decide (r.score = s)) := by
  simpa using foldl_insert_filter s l [] (List.Pairwise.nil)

theorem foldl_applyMetaCheck_score (cs : List (String × Bool)) :
    ∀ acc : ℚ × List String, ∃ k : ℕ, (cs.foldl applyMetaCheck acc).1 = acc.1 + 20 * k := by
  induction cs with
  | nil => exact fun acc => ⟨0, by simp⟩
  | cons c cs ih =>
    intro acc
    obtain ⟨k, hk⟩ := ih (applyMetaCheck acc c)
    by_cases h : c.2
    · refine ⟨k + 1, ?_⟩
      rw [List.foldl_cons, hk]
      simp only [applyMetaCheck, if_pos h]
      push_cast
      ring
    · refine ⟨k, ?_⟩
      rw [List.foldl_cons, hk]
      simp only [applyMetaCheck, if_neg h]

theorem scoreItem_shape (mode : String) (item : CatalogItem) (params : ClimateParams) :
    ∃ n : ℕ, (scoreItem mode item params).score = min 100 ((n : ℚ) * 20) := by
  unfold scoreItem
  by_cases h : mode = "meta"
  · rw [if_pos h]
    rcases hm : item.meta with _ | m
    · exact ⟨0, by simp [scoreFromMeta, hm]⟩
    · obtain ⟨k, hk⟩ := foldl_applyMetaCheck_score (metaChecks item.name m params) (0, [])
      rw [zero_add] at hk
      refine ⟨k, ?_⟩
      simp only [scoreFromMeta, hm]
      rw [hk]
      rcases le_or_lt ((20:ℚ) * k) 100 with hle | hlt
      · rw [if_neg (not_lt.mpr hle), min_eq_right (by linarith)]
        ring
      · rw [if_pos hlt, min_eq_left (by linarith)]
  · rw [if_neg h]
    exact ⟨((item.checks.filter (fun c => c.2)).map (fun c => c.1)).length,
      by simp only [scoreStandardItem, scoreFromMatches]⟩

theorem min_twenty_nonneg (n : ℕ) : 0 ≤ min (100:ℚ) ((n:ℚ) * 20) :=
  le_min (by norm_num) (by positivity)

theorem min_twenty_le (n : ℕ) : min (100:ℚ) ((n:ℚ) * 20) ≤ 100 := min_le_left _ _

theorem min_twenty_mem (n : ℕ) :
    min (100:ℚ) ((n:ℚ) * 20) ∈ ([0, 20, 40, 60, 80, 100] : List ℚ) := by
  rcases Nat.lt_or_ge n 6 with h | h
  · interval_cases n <;> norm_num
  · have h6 : (6:ℚ) ≤ (n:ℚ) := by exact_mod_cast h
    rw [min_eq_left (by linarith)]
    simp

theorem diseaseWeights_getD_nonneg (name : String) : 0 ≤ ((diseaseWeights name).getD 1) := by
  unfold diseaseWeights
  repeat' split
  all_goals norm_num

theorem applyDiseaseWeight_nonneg (name : String) (raw : ℚ) (h : 0 ≤ raw) :
    0 ≤ applyDiseaseWeight name raw := by
  show (0:ℚ) ≤ if raw * ((diseaseWeights name).getD 1) > 100 then 100
    else raw * ((diseaseWeights name).getD 1)
  split
  · norm_num
  · exact mul_nonneg h (diseaseWeights_getD_nonneg name)

theorem applyDiseaseWeight_le_100 (name : String) (raw : ℚ) :
    applyDiseaseWeight name raw ≤ 100 := by
  show (if raw * ((diseaseWeights name).getD 1) > 100 then 100
    else raw * ((diseaseWeights name).getD 1)) ≤ 100
  split
  · norm_num
  · exact le_of_not_lt (by assumption)

theorem levelFor_iff (s : ℚ) :
    (levelFor s = .Low ↔ s ≤ 30) ∧ (levelFor s = .Medium ↔ 30 < s ∧ s ≤ 70) ∧
      (levelFor s = .High ↔ 70 < s) := by
  unfold levelFor
  split_ifs with h1 h2 <;> refine ⟨?_, ?_, ?_⟩ <;> simp_all
  all_goals linarith

theorem scoreItem_of_ne_meta {mode : String} (h : mode ≠ "meta") (item : CatalogItem)
    (params : ClimateParams) : scoreItem mode item params = scoreStandardItem item params := by
  simp [scoreItem, h]

theorem mkDiseaseResult_of_ne_meta {mode mode' : String} (h : mode ≠ "meta")
    (h' : mode' ≠ "meta") (p p' : ClimateParams) (item : CatalogItem) :
    mkDiseaseResult mode p item = mkDiseaseResult mode' p' item := by
  simp only [mkDiseaseResult, scoreItem_of_ne_meta h, scoreItem_of_ne_meta h',
    scoreStandardItem]

theorem mkPestResult_of_ne_meta {mode mode' : String} (h : mode ≠ "meta")
    (h' : mode' ≠ "meta") (p p' : ClimateParams) (item : CatalogItem) :
    mkPestResult mode p item = mkPestResult mode' p' item := by
  simp only [mkPestResult, scoreItem_of_ne_meta h, scoreItem_of_ne_meta h',
    scoreStandardItem]

theorem getD_mode_ne_meta {mode : Option String} (h : mode ≠ some "meta") :
    mode.getD ("standard") ≠ "meta" := by
  cases mode with
  | none => decide
  | some s => simpa using h

theorem mem_calculateDiseaseRisks {params : ClimateParams} {r : RiskItem} :
    r ∈ calculateDiseaseRisks params ↔
      ∃ item ∈ diseaseItems params.temperature
          (params.rh.getD (params.relativeHumidity.getD 0))
          (params.weeklyRainfall.getD (params.rainfall.getD 0))
          (params.leafWetness.getD (params.wetnessHours.getD 0))
          (params.windSpeed.getD 0) params.soilMoisture params.canopyHumidity,
        mkDiseaseResult (params.mode.getD ("standard")) params item = r := by
  rw [calculateDiseaseRisks, jsSortByScoreDesc_mem, diseaseResultsUnsorted, List.mem_map]

theorem mem_calculatePestRisks {params : ClimateParams} {r : RiskItem} :
    r ∈ calculatePestRisks params ↔
      ∃ item ∈ pestItems params.temperature
          (params.rh.getD (params.relativeHumidity.getD 0))
          (params.weeklyRainfall.getD (params.rainfall.getD 0))
          (params.leafWetness.getD (params.wetnessHours.getD 0))
          (params.windSpeed.getD 0) params.soilMoisture params.dustLevel
          params.canopyHumidity params.drainage,
        mkPestResult (params.mode.getD ("standard")) params item = r := by
  rw [calculatePestRisks, jsSortByScoreDesc_mem, pestResultsUnsorted, List.mem_map]

/-- C1 counterexample: on the reading `{temperature:5, relativeHumidity:20,
rainfall:0, wetnessHours:0, windSpeed:30}` it is not the case that every
returned disease result has score 0 and level Low (Powdery Mildew's
leaf-wetness 0–2 h check and two Necrotic Leaf Blotch checks match). -/
theorem c1_counterexample :
    ((calculateDiseaseRisks exampleTwoReading).all
      (fun r => decide (r.score = 0) && decide (r.level = Level.Low))) = false := by
  simp [calculateDiseaseRisks, diseaseResultsUnsorted, diseaseItems, mkDiseaseResult,
    scoreItem, scoreStandardItem, scoreFromMatches, applyDiseaseWeight, diseaseWeights,
    levelFor, jsSortByScoreDesc, insertByScoreDesc, exampleTwoReading]
  norm_num [levelFor, insertByScoreDesc]

/-- C1 (amended): on the standard-mode evaluation of the reading
`{temperature:5, relativeHumidity:20, rainfall:0, wetnessHours:0, windSpeed:30}`,
Necrotic Leaf Blotch (physiological) scores 40 (level Medium, via its RH<40 and
wind>15 checks), Powdery Mildew scores 20 (level Low, via its leaf-wetness
0–2 h check), and the other seven diseases score 0 with level Low, in this
sorted order. -/
theorem c1_example_two_scores :
    (calculateDiseaseRisks exampleTwoReading).map (fun r => (r.name, r.score, r.level)) =
      [ ("Necrotic Leaf Blotch (physiological)", (40 : ℚ), Level.Medium),
        ("Powdery Mildew", 20, Level.Low),
        ("Apple Scab", 0, Level.Low),
        ("Apple Leaf Blotch (Alternaria)", 0, Level.Low),
        ("Brown Rot", 0, Level.Low),
        ("Bull\x27s‑eye Rot", 0, Level.Low),
        ("Sooty Blotch", 0, Level.Low),
        ("Flyspeck", 0, Level.Low),
        ("Collar / Root Rot", 0, Level.Low) ] := by
  simp [calculateDiseaseRisks, diseaseResultsUnsorted, diseaseItems, mkDiseaseResult,
    scoreItem, scoreStandardItem, scoreFromMatches, applyDiseaseWeight, diseaseWeights,
    levelFor, jsSortByScoreDesc, insertByScoreDesc, exampleTwoReading]
  norm_num [levelFor, insertByScoreDesc]

/-- C5: in both scoring modes, for every catalog entry and every reading, the
raw item score lies in [0, 100], and so does the score after the disease
tie-break weighting. -/
theorem c5_bounded_score (mode : String) (item : CatalogItem) (params : ClimateParams) :
    (0 ≤ (scoreItem mode item params).score ∧ (scoreItem mode item params).score ≤ 100) ∧
    (0 ≤ applyDiseaseWeight item.name (scoreItem mode item params).score ∧
      applyDiseaseWeight item.name (scoreItem mode item params).score ≤ 100) := by
  obtain ⟨n, hn⟩ := scoreItem_shape mode item params
  refine ⟨⟨?_, ?_⟩, ?_, ?_⟩
  · rw [hn]; exact min_twenty_nonneg n
  · rw [hn]; exact min_twenty_le n
  · exact applyDiseaseWeight_nonneg _ _ (by rw [hn]; exact min_twenty_nonneg n)
  · exact applyDiseaseWeight_le_100 _ _

/-- C6: every result returned by `calculateDiseaseRisks` or
`calculatePestRisks` has level Low iff score ≤ 30, Medium iff 30 < score ≤ 70,
and High iff score > 70. -/
theorem c6_level_consistency (params : ClimateParams) :
    ((calculateDiseaseRisks params) ++ (calculatePestRisks params)).Forall
      (fun r => (r.level = .Low ↔ r.score ≤ 30) ∧
        (r.level = .Medium ↔ 30 < r.score ∧ r.score ≤ 70) ∧
        (r.level = .High ↔ 70 < r.score)) := by
  rw [List.forall_iff_forall_mem]
  intro r hr
  have hlev : r.level = levelFor r.score := by
    rcases List.mem_append.mp hr with h | h
    · obtain ⟨item, -, rfl⟩ := mem_calculateDiseaseRisks.mp h
      rfl
    · obtain ⟨item, -, rfl⟩ := mem_calculatePestRisks.mp h
      rfl
  rw [hlev]
  exact levelFor_iff r.score

/-- C9: every score returned by `calculatePestRisks` in either mode is one of
0, 20, 40, 60, 80, 100; no tie-break weight enters the pest pipeline. -/
theorem c9_pest_score_set (params : ClimateParams) :
    (calculatePestRisks params).Forall
      (fun r => r.score ∈ ([0, 20, 40, 60, 80, 100] : List ℚ)) := by
  rw [List.forall_iff_forall_mem]
  intro r hr
  obtain ⟨item, -, rfl⟩ := mem_calculatePestRisks.mp hr
  obtain ⟨n, hn⟩ := scoreItem_shape (params.mode.getD ("standard")) item params
  have hs : (mkPestResult (params.mode.getD ("standard")) params item).score =
      (scoreItem (params.mode.getD ("standard")) item params).score := rfl
  rw [hs, hn]
  exact min_twenty_mem n

end ClimateRules

namespace PlanetAoi

/-- C3 counterexample: on the reading `{temperature:20, relativeHumidity:90,
wetnessHours:14, soilMoisture:65, rainfall:25}`, the recommendation list has
five entries, not three (the temperature-monitor and soil-moisture-irrigation
messages also fire). -/
theorem c3_counterexample :
    (analyzeRisk exampleThreeClimate).recommendations.length = 5 := by
  norm_num [analyzeRisk, exampleThreeClimate, temperatureContribution, humidityContribution,
    wetnessContribution, soilMoistureContribution, rainfallContribution]

/-- C3 (amended): on the reading `{temperature:20, relativeHumidity:90,
wetnessHours:14, soilMoisture:65, rainfall:25}`, the aggregate analyzer returns
riskScore 100 (25+25+25+15+10), riskLevel critical, and exactly five
recommendations in fixed order — temperature-monitor, humidity-circulation,
wetness-fungicide, soil-moisture-irrigation, preventive-fungicide — and never
the fallback low-risk message. -/
theorem c3_example_three :
    (analyzeRisk exampleThreeClimate).riskScore = 100 ∧
    (analyzeRisk exampleThreeClimate).riskLevel = "critical" ∧
    (analyzeRisk exampleThreeClimate).recommendations =
      [temperatureMsg, humidityMsg, wetnessMsg, soilMoistureMsg, preventiveMsg] ∧
    (analyzeRisk exampleThreeClimate).recommendations ≠ [lowRiskMsg] := by
  norm_num [analyzeRisk, exampleThreeClimate, temperatureContribution, humidityContribution,
    wetnessContribution, soilMoistureContribution, rainfallContribution,
    temperatureMsg, humidityMsg, wetnessMsg, soilMoistureMsg, preventiveMsg, lowRiskMsg]
  simp

/-- C8: the aggregate risk score never exceeds 100: the five factor
contributions are bounded by 25, 25, 25, 15 and 10, which sum to exactly 100,
with no separate final clamp. -/
theorem c8_aggregate_cap :
    (∀ v, (temperatureContribution v).1 ≤ 25) ∧ (∀ v, (humidityContribution v).1 ≤ 25) ∧
    (∀ v, (wetnessContribution v).1 ≤ 25) ∧ (∀ v, (soilMoistureContribution v).1 ≤ 15) ∧
    (∀ v, (rainfallContribution v).1 ≤ 10) ∧
    (∀ climate : ClimateData, (analyzeRisk climate).riskScore ≤ 100) := by
  have ht : ∀ v, (temperatureContribution v).1 ≤ 25 := by
    intro v
    unfold temperatureContribution
    rcases v with _ | v
    · norm_num
    · dsimp only
      split_ifs <;> norm_num
  have hh : ∀ v, (humidityContribution v).1 ≤ 25 := by
    intro v
    unfold humidityContribution
    rcases v with _ | v
    · norm_num
    · dsimp only
      split_ifs <;> norm_num
  have hw : ∀ v, (wetnessContribution v).1 ≤ 25 := by
    intro v
    unfold wetnessContribution
    rcases v with _ | v
    · norm_num
    · dsimp only
      split_ifs <;> norm_num
  have hs : ∀ v, (soilMoistureContribution v).1 ≤ 15 := by
    intro v
    unfold soilMoistureContribution
    rcases v with _ | v
    · norm_num
    · dsimp only
      split_ifs <;> norm_num
  have hr : ∀ v, (rainfallContribution v).1 ≤ 10 := by
    intro v
    unfold rainfallContribution
    rcases v with _ | v
    · norm_num
    · dsimp only
      split_ifs <;> norm_num
  refine ⟨ht, hh, hw, hs, hr, ?_⟩
  intro climate
  have hsum : (analyzeRisk climate).riskScore =
      (temperatureContribution climate.temperature).1 +
      (humidityContribution climate.relativeHumidity).1 +
      (wetnessContribution climate.wetnessHours).1 +
      (soilMoistureContribution climate.soilMoisture).1 +
      (rainfallContribution climate.rainfall).1 := rfl
  rw [hsum]
  linarith [ht climate.temperature, hh climate.relativeHumidity, hw climate.wetnessHours,
    hs climate.soilMoisture, hr climate.rainfall]

end PlanetAoi

namespace ClimateRules

/-- C2 counterexample: in meta mode, a reading with every optional field
omitted and one with every optional field set to its default produce different
disease lists (explicit zeros satisfy ranges whose minimum is 0, omitted
fields never match). -/
theorem c2_counterexample :
    ¬ (calculateDiseaseRisks (omittedReading 0 (some "meta")) =
        calculateDiseaseRisks (defaultedReading 0 (some "meta"))) := by
  simp [calculateDiseaseRisks, diseaseResultsUnsorted, diseaseItems, mkDiseaseResult,
    scoreItem, scoreFromMeta, metaChecks, applyMetaCheck, applyDiseaseWeight, diseaseWeights,
    levelFor, jsSortByScoreDesc, insertByScoreDesc, omittedReading, defaultedReading,
    isNecroticName_scab, isNecroticName_alternaria, isNecroticName_mildew, isNecroticName_brownrot,
    isNecroticName_bullseye, isNecroticName_sooty, isNecroticName_flyspeck, isNecroticName_collar,
    isNecroticName_necrotic]
  norm_num [levelFor, insertByScoreDesc]

/-- C2 (amended): neither call can throw (both functions are total), and for
every reading evaluated in standard mode (any mode other than 'meta'),
omitting every optional field gives exactly the same disease and pest lists as
setting every optional field to its default; in meta mode the two can differ. -/
theorem c2_default_equiv_standard (t : ℚ) (mode : Option String) (h : mode ≠ some "meta") :
    calculateDiseaseRisks (omittedReading t mode) =
        calculateDiseaseRisks (defaultedReading t mode) ∧
    calculatePestRisks (omittedReading t mode) =
        calculatePestRisks (defaultedReading t mode) := by
  have hm : (mode.getD ("standard")) ≠ "meta" := getD_mode_ne_meta h
  constructor
  · show jsSortByScoreDesc ((diseaseItems t 0 0 0 0 none none).map
        (mkDiseaseResult (mode.getD ("standard")) (omittedReading t mode))) =
      jsSortByScoreDesc ((diseaseItems t 0 0 0 0 (some 0) (some 0)).map
        (mkDiseaseResult (mode.getD ("standard")) (defaultedReading t mode)))
    have hitems : diseaseItems t 0 0 0 0 (some 0) (some 0) =
        diseaseItems t 0 0 0 0 none none := by
      norm_num [diseaseItems]
    rw [hitems]
    exact congrArg jsSortByScoreDesc (List.map_congr_left
      (fun item _ => mkDiseaseResult_of_ne_meta hm hm _ _ item))
  · show jsSortByScoreDesc ((pestItems t 0 0 0 0 none none none none).map
        (mkPestResult (mode.getD ("standard")) (omittedReading t mode))) =
      jsSortByScoreDesc ((pestItems t 0 0 0 0 (some 0) (some .unknown) (some 0)
          (some .unknown)).map
        (mkPestResult (mode.getD ("standard")) (defaultedReading t mode)))
    have hitems : pestItems t 0 0 0 0 (some 0) (some .unknown) (some 0) (some .unknown) =
        pestItems t 0 0 0 0 none none none none := by
      simp [pestItems]
    rw [hitems]
    exact congrArg jsSortByScoreDesc (List.map_congr_left
      (fun item _ => mkPestResult_of_ne_meta hm hm _ _ item))

/-- C2 witness: the amended equivalence at temperature 0 with mode absent. -/
theorem c2_default_equiv_standard_witness :
    calculateDiseaseRisks (omittedReading 0 none) =
        calculateDiseaseRisks (defaultedReading 0 none) ∧
    calculatePestRisks (omittedReading 0 none) =
        calculatePestRisks (defaultedReading 0 none) :=
  c2_default_equiv_standard 0 none (by decide)

/-- C4: both result lists are non-increasing in score, and entries of equal
score keep the catalog declaration order: filtering the sorted output at any
fixed score equals filtering the catalog-order evaluated list. -/
theorem c4_sort_order (params : ClimateParams) :
    (calculateDiseaseRisks params).Pairwise (fun a b => b.score ≤ a.score) ∧
    (calculatePestRisks params).Pairwise (fun a b => b.score ≤ a.score) ∧
    (∀ s : ℚ, (calculateDiseaseRisks params).filter (fun r => decide (r.score = s)) =
      (diseaseResultsUnsorted params).filter (fun r => decide (r.score = s))) ∧
    (∀ s : ℚ, (calculatePestRisks params).filter (fun r => decide (r.score = s)) =
      (pestResultsUnsorted params).filter (fun r => decide (r.score = s))) :=
  ⟨jsSortByScoreDesc_pairwise _, jsSortByScoreDesc_pairwise _,
    fun s => jsSortByScoreDesc_filter _ s, fun s => jsSortByScoreDesc_filter _ s⟩

/-- C7: a reading whose mode is anything other than 'meta' (including absent or
unrecognized) is scored exactly as mode 'standard'; every mode value produces a
result (both functions are total, so no value is rejected). -/
theorem c7_mode_fallback (params : ClimateParams) (h : params.mode ≠ some "meta") :
    calculateDiseaseRisks params =
        calculateDiseaseRisks { params with mode := some "standard" } ∧
    calculatePestRisks params =
        calculatePestRisks { params with mode := some "standard" } := by
  have hm : (params.mode.getD ("standard")) ≠ "meta" := getD_mode_ne_meta h
  constructor
  · show jsSortByScoreDesc ((diseaseItems params.temperature
        (params.rh.getD (params.relativeHumidity.getD 0))
        (params.weeklyRainfall.getD (params.rainfall.getD 0))
        (params.leafWetness.getD (params.wetnessHours.getD 0))
        (params.windSpeed.getD 0) params.soilMoisture params.canopyHumidity).map
        (mkDiseaseResult (params.mode.getD ("standard")) params)) =
      jsSortByScoreDesc ((diseaseItems params.temperature
        (params.rh.getD (params.relativeHumidity.getD 0))
        (params.weeklyRainfall.getD (params.rainfall.getD 0))
        (params.leafWetness.getD (params.wetnessHours.getD 0))
        (params.windSpeed.getD 0) params.soilMoisture params.canopyHumidity).map
        (mkDiseaseResult "standard" { params with mode := some "standard" }))
    exact congrArg jsSortByScoreDesc (List.map_congr_left
      (fun item _ => mkDiseaseResult_of_ne_meta hm (by decide) _ _ item))
  · show jsSortByScoreDesc ((pestItems params.temperature
        (params.rh.getD (params.relativeHumidity.getD 0))
        (params.weeklyRainfall.getD (params.rainfall.getD 0))
        (params.leafWetness.getD (params.wetnessHours.getD 0))
        (params.windSpeed.getD 0) params.soilMoisture params.dustLevel
        params.canopyHumidity params.drainage).map
        (mkPestResult (params.mode.getD ("standard")) params)) =
      jsSortByScoreDesc ((pestItems params.temperature
        (params.rh.getD (params.relativeHumidity.getD 0))
        (params.weeklyRainfall.getD (params.rainfall.getD 0))
        (params.leafWetness.getD (params.wetnessHours.getD 0))
        (params.windSpeed.getD 0) params.soilMoisture params.dustLevel
        params.canopyHumidity params.drainage).map
        (mkPestResult "standard" { params with mode := some "standard" }))
    exact congrArg jsSortByScoreDesc (List.map_congr_left
      (fun item _ => mkPestResult_of_ne_meta hm (by decide) _ _ item))

/-- C7 witness: a reading with mode absent evaluates like mode 'standard'. -/
theorem c7_mode_fallback_witness :
    calculateDiseaseRisks { temperature := 18 } =
        calculateDiseaseRisks { temperature := 18, mode := some "standard" } ∧
    calculatePestRisks { temperature := 18 } =
        calculatePestRisks { temperature := 18, mode := some "standard" } :=
  c7_mode_fallback { temperature := 18 } (by decide)

theorem necrotic_checks {a b c d e : ℚ} {f g : Option ℚ} {item : CatalogItem}
    (h : item ∈ diseaseItems a b c d e f g)
    (hn : item.name = "Necrotic Leaf Blotch (physiological)") :
    item.checks = [("RH <40% OR >90%", decide (b < 40) || decide (b > 90)),
      ("Soil moisture swing <40% then >80% (approx ignored)", false),
      ("Hot & dry wind >15 km/h", decide (e > 15))] := by
  simp only [diseaseItems, List.mem_cons, List.not_mem_nil, or_false] at h
  rcases h with rfl | rfl | rfl | rfl | rfl | rfl | rfl | rfl | rfl
  all_goals first
    | rfl
    | simp at hn

theorem scoreStandardItem_pair_bound {item : CatalogItem} (p : ClimateParams)
    (l1 l2 l3 : String) (b1 b3 : Bool)
    (hc : item.checks = [(l1, b1), (l2, false), (l3, b3)]) :
    (scoreStandardItem item p).score ≤ 40 := by
  simp only [scoreStandardItem, scoreFromMatches, hc]
  cases b1 <;> cases b3 <;> simp [List.filter] <;> norm_num

theorem diseaseWeights_necrotic :
    diseaseWeights "Necrotic Leaf Blotch (physiological)" = none := by
  simp [diseaseWeights]

theorem applyDiseaseWeight_necrotic (raw : ℚ) :
    applyDiseaseWeight "Necrotic Leaf Blotch (physiological)" raw =
      if raw > 100 then 100 else raw := by
  simp only [applyDiseaseWeight, diseaseWeights_necrotic, Option.getD, mul_one]

/-- C10: on every standard-mode evaluation, the Necrotic Leaf Blotch
(physiological) result scores at most 40 and is never level High: its middle
check is the constant-false soil-moisture-swing predicate, so at most two of
its three checks can match, and its name is absent from the weight table. -/
theorem c10_necrotic_bound (params : ClimateParams) (h : params.mode ≠ some "meta") :
    (calculateDiseaseRisks params).Forall
      (fun r => r.name = "Necrotic Leaf Blotch (physiological)" →
        r.score ≤ 40 ∧ r.level ≠ Level.High) := by
  rw [List.forall_iff_forall_mem]
  intro r hr hname
  obtain ⟨item, hitem, rfl⟩ := mem_calculateDiseaseRisks.mp hr
  have hm := getD_mode_ne_meta h
  have hni : item.name = "Necrotic Leaf Blotch (physiological)" := hname
  have hraw : (scoreStandardItem item params).score ≤ 40 :=
    scoreStandardItem_pair_bound params _ _ _ _ _ (necrotic_checks hitem hni)
  have hscore : (mkDiseaseResult (params.mode.getD ("standard")) params item).score =
      applyDiseaseWeight item.name (scoreStandardItem item params).score := by
    simp only [mkDiseaseResult, scoreItem_of_ne_meta hm]
  have hscore' : (mkDiseaseResult (params.mode.getD ("standard")) params item).score ≤ 40 := by
    rw [hscore, hni, applyDiseaseWeight_necrotic, if_neg (by intro hgt; linarith)]
    exact hraw
  refine ⟨hscore', ?_⟩
  have hlev : (mkDiseaseResult (params.mode.getD ("standard")) params item).level =
      levelFor ((mkDiseaseResult (params.mode.getD ("standard")) params item).score) := rfl
  rw [hlev]
  intro he
  have := (levelFor_iff _).2.2.mp he
  linarith

/-- C10 witness: the bound instantiated on a concrete standard-mode reading. -/
theorem c10_necrotic_bound_witness :
    (calculateDiseaseRisks { temperature := 0 }).Forall
      (fun r => r.name = "Necrotic Leaf Blotch (physiological)" →
        r.score ≤ 40 ∧ r.level ≠ Level.High) :=
  c10_necrotic_bound { temperature := 0 } (by decide)

end ClimateRules